import Mathlib

/-!
Verification development for `helpers.py` of the geo-testing repository.

The file shallowly embeds the five plotting helpers
(`make_geoplot`, `make_market_plot`, `make_market_deep_dive_plot`,
`make_market_plot_multicell`, `make_market_deep_dive_plot_multicell`).

Each Python function is modelled as a pure function from an environment
`Env` — the oracle describing the outcomes of the external boundaries
(the embedded R interpreter, PIL's image decoding, the OS temp-file
facility, and the fresh temp-file names R's `tempfile()` produces) —
to a trace of observable events plus a result (the Python return value,
or the first uncaught exception).  The R script texts are embedded
verbatim from the source's f-strings, as concatenations with the same
holes the f-strings have.  The file-system events performed by the
embedded R scripts (opening a png device on a path creates/writes that
file, `readBin` reads it, `unlink` removes it) are emitted at the point
the script runs, read off the script text in the source.

On failure paths inside the R call of `make_geoplot`, the model emits
the file events of the evaluation-failure case (no device was opened);
all claims about failures concern only the propagated error and the
absence of display events, which do not depend on that choice.
-/

/-- A Python value, as far as the helpers inspect one: the helpers pass
values into f-strings (via `str`) and compare them with `True`. -/
inductive PyVal where
  | none
  | bool (b : Bool)
  | int (n : Int)
  | str (s : String)
  deriving DecidableEq, Repr

/-- Python `str(v)`, as used by f-string interpolation in the source. -/
def pyStr : PyVal → String
  | PyVal.none => "None"
  | PyVal.bool true => "True"
  | PyVal.bool false => "False"
  | PyVal.int n => toString n
  | PyVal.str s => s

/-- Python `v == True`, the dispatch test `if inline == True:` used by the
source: `True == True` and `1 == True` hold, everything else is `False`
(a non-empty string is truthy but not equal to `True`). -/
def pyEqTrue : PyVal → Bool
  | PyVal.bool b => b
  | PyVal.int n => n == 1
  | _ => false

/-- An uncaught Python/R exception, carried opaquely. -/
structure Err where
  msg : String
  deriving DecidableEq, Repr

/-- A raw byte payload (the R `raw` vector crossing the bridge). -/
abbrev Bytes := List Nat

/-- A decoded PIL image. -/
structure PILImage where
  raw : Bytes
  deriving DecidableEq, Repr

/-- Observable events of one helper call. -/
inductive Event where
  /-- `r(script)`: a script text handed to the embedded R interpreter. -/
  | rExec (script : String)
  /-- `robjects.r[name]()`: calling a named R function. -/
  | rCall (fn : String)
  /-- a temporary file comes into existence on disk under this name. -/
  | tmpCreate (name : String)
  /-- the file's contents are (completely) written. -/
  | tmpWrite (name : String)
  /-- the file's contents are read back. -/
  | tmpRead (name : String)
  /-- the file is removed from disk. -/
  | tmpRemove (name : String)
  /-- `display(img)`: the inline notebook display path. -/
  | displayInline (img : PILImage)
  /-- `img.show()`: the platform image-viewer popup path. -/
  | popupShow (img : PILImage)
  deriving DecidableEq, Repr

/-- Outcomes of the external boundaries during one helper call:
whether each executed script fails, what the `create_plot` call yields,
how PIL decodes bytes or opens an image file, whether the OS grants a
named temporary file, and the fresh names R's `tempfile()` generates. -/
structure Env where
  /-- `r(script)`: `Option.none` means success, `some e` the R error `e`. -/
  exec : String → Option Err
  /-- result of `robjects.r["create_plot"]()`: the raw vector, or the R error. -/
  callPlot : Except Err Bytes
  /-- `Image.open(BytesIO(b))`: PIL decoding of an in-memory payload. -/
  decode : Bytes → Except Err PILImage
  /-- `Image.open(path)`: PIL reading and decoding an image file. -/
  openFile : String → Except Err PILImage
  /-- `tempfile.NamedTemporaryFile(suffix=".png", delete=False)`:
  the fresh file's name, or the OS error. -/
  tmpCreate : Except Err String
  /-- fresh name from the first R `tempfile()` in `create_plot`. -/
  tmpA : String
  /-- fresh name from the second R `tempfile()` in `create_plot`. -/
  tmpB : String

/-- The result of one helper call: its event trace together with the
returned value (Python `None` on success) or the propagated exception. -/
abbrev CallResult := List Event × Except Err PyVal

/-! ## The script texts, verbatim from the source's string literals -/

/-- Opening fragment of the R `create_plot` definition in `make_geoplot`,
up to the hole the caller's `plot_R_code` is pasted into. -/
def create_plot_head : String :=
  "\n        create_plot <- function() \x7b\n\n          # Create the plot\n          p <- "

/-- Remainder of the R `create_plot` definition in `make_geoplot`: the
first png device on a fresh `tempfile()` (never unlinked), the second
device on `temp_file`, the `readBin` of `temp_file`, and its `unlink`. -/
def create_plot_tail : String :=
  "\n\n          # Open a png device in memory\n          grDevices::png(tempfile(), bg = \"transparent\")\n          print(p)\n          grDevices::dev.off()\n\n          # Read the file and return its content\n          temp_file <- tempfile()\n          grDevices::png(temp_file, width=800, height=600, pointsize=16, bg=\"transparent\")\n          print(p)\n          grDevices::dev.off()\n\n          raw_vector <- base::readBin(temp_file, what = \"raw\", n = file.info(temp_file)$size)\n          unlink(temp_file) # Remove the temp file\n          return(raw_vector)\n        \x7d\n        "

/-- The script `make_geoplot` hands to `r(...)`: the `create_plot`
definition with the caller's plot code pasted in. -/
def create_plot_script (plot_R_code : String) : String :=
  create_plot_head ++ plot_R_code ++ create_plot_tail

/-- `make_market_plot`'s f-string, fragment before the temp-file name. -/
def mp_part1 : String := "\n        png(filename=\""

/-- `make_market_plot`'s f-string, fragment between the temp-file name
and the market id. -/
def mp_part2 : String :=
  "\", width=800, height=600, pointsize=16)\n        plot(MarketSelections, market_ID = "

/-- `make_market_plot`'s f-string, fragment after the market id. -/
def mp_part3 : String := ", print_summary = TRUE)\n        dev.off()\n        "

/-- The plotting script of `make_market_plot`, an f-string with the
temp-file name and `market_id` interpolated. -/
def market_plot_script (tmpfile_name market_id : String) : String :=
  mp_part1 ++ tmpfile_name ++ mp_part2 ++ market_id ++ mp_part3

/-- `make_market_deep_dive_plot`'s setup f-string before `market_id`. -/
def dd_part1 : String := "\n        market_id = "

/-- `make_market_deep_dive_plot`'s setup f-string between `market_id`
and `lookback_window`: filtering the `MarketSelections$BestMarkets` row
and deriving the treatment locations and duration from it. -/
def dd_part2 : String :=
  "\n        market_row <- MarketSelections$BestMarkets %>% dplyr::filter(ID == market_id)\n        treatment_locations <- stringr::str_split(market_row$location, \", \")[[1]]\n        treatment_duration <- market_row$duration\n        lookback_window <- "

/-- `make_market_deep_dive_plot`'s setup f-string after
`lookback_window`: the `GeoLiftPower` simulation over the derived
locations, duration and the assigned lookback window. -/
def dd_part3 : String :=
  "\n\n        power_data <- GeoLiftPower(\n          data = GeoTestData_PreTest,\n          locations = treatment_locations,\n          effect_size = seq(-0.25, 0.25, 0.01),\n          lookback_window = lookback_window,\n          treatment_periods = treatment_duration,\n          cpic = 7.5,\n          side_of_test = \"two_sided\"\n          )\n    "

/-- The first script `make_market_deep_dive_plot` executes: derive the
treatment details from the selected row, then build `power_data`. -/
def deep_dive_setup_script (market_id lookback_window : String) : String :=
  dd_part1 ++ market_id ++ dd_part2 ++ lookback_window ++ dd_part3

/-- The plot expression `p` that `make_market_deep_dive_plot` passes on
to `make_geoplot`. -/
def deep_dive_plot_code : String :=
  "plot(power_data, show_mde = TRUE, smoothed_values = FALSE, breaks_x_axis = 5) +\n                ggplot2::labs(caption = unique(power_data$location))"

/-- One entry of the R list literal the multicell helpers build:
`"cell_{} = {}".format(i+1, n)`. -/
def cell_entry (i : Nat) (n : PyVal) : String :=
  "cell_" ++ toString (i + 1) ++ " = " ++ pyStr n

/-- Python's `sep.join(xs)`. -/
def pyJoin (sep : String) : List String → String
  | [] => ""
  | [x] => x
  | x :: y :: rest => x ++ sep ++ pyJoin sep (y :: rest)

/-- The cell entries for the enumerated id list, starting at index `i`
(the source enumerates from 0 and numbers cells from 1). -/
def cellsFrom (i : Nat) : List PyVal → List String
  | [] => []
  | n :: rest => cell_entry i n :: cellsFrom (i + 1) rest

/-- `", ".join("cell_{} = {}".format(i+1, n) for i, n in enumerate(market_ids))`. -/
def market_locs (market_ids : List PyVal) : String :=
  pyJoin ", " (cellsFrom 0 market_ids)

/-- `make_market_plot_multicell`'s binding script for `test_locs`. -/
def test_locs_script (market_ids : List PyVal) : String :=
  "\n        test_locs <- list(" ++ market_locs market_ids ++ ")\n        "

/-- Fragment of the multicell plot f-string before the temp-file name. -/
def mc_part1 : String := "\n        png(filename=\""

/-- Fragment of the multicell plot f-string after the temp-file name:
one `plot(Markets, ...)` command over the whole `test_locs` list. -/
def mc_part2 : String :=
  "\", width=800, height=600, pointsize=16)\n        plot(Markets, test_markets = test_locs, type = \"Lift\", stacked = TRUE)\n        dev.off()\n        "

/-- The plotting script of `make_market_plot_multicell`. -/
def multicell_plot_script (tmpfile_name : String) : String :=
  mc_part1 ++ tmpfile_name ++ mc_part2

/-- `make_market_deep_dive_plot_multicell`'s binding script for
`test_locs` (indented with four spaces in the source). -/
def mc_test_locs_script (market_ids : List PyVal) : String :=
  "\n    test_locs <- list(" ++ market_locs market_ids ++ ")\n    "

/-- Fragment of the `MultiCellPower` f-string before `lookback_window`. -/
def mcp_part1 : String :=
  "\n        Power <- MultiCellPower(Markets,\n                                test_markets = test_locs,\n                                effect_size =  seq(-0.5, 0.5, 0.05),\n                                lookback_window = "

/-- Fragment of the `MultiCellPower` f-string after `lookback_window`. -/
def mcp_part2 : String := ")\n    "

/-- The `Power <- MultiCellPower(...)` script of
`make_market_deep_dive_plot_multicell`. -/
def mc_power_script (lookback_window : String) : String :=
  mcp_part1 ++ lookback_window ++ mcp_part2

/-- Fragment of the multicell deep-dive plot f-string after the
temp-file name: one `plot(Power, ...)` command. -/
def mcd_part2 : String :=
  "\", width=800, height=600, pointsize=16)\n        plot(Power, actual_values = TRUE, thed_values = FALSE, show_mde = TRUE, breaks_x_axis = 15, stacked = TRUE)\n        dev.off()\n        "

/-- The plotting script of `make_market_deep_dive_plot_multicell`. -/
def mc_deep_plot_script (tmpfile_name : String) : String :=
  mc_part1 ++ tmpfile_name ++ mcd_part2

/-! ## The five helpers -/

/-- The file events the R `create_plot` body performs when it runs to
completion: the first png device creates and writes a file at a fresh
`tempfile()` name (never removed); the second device creates and writes
`temp_file`, which `readBin` reads and `unlink` removes. -/
def create_plot_file_events (env : Env) : List Event :=
  [Event.tmpCreate env.tmpA, Event.tmpWrite env.tmpA,
   Event.tmpCreate env.tmpB, Event.tmpWrite env.tmpB,
   Event.tmpRead env.tmpB, Event.tmpRemove env.tmpB]

/-- `make_geoplot(r, plot_R_code, inline=True)`: define `create_plot`
in R, call it, convert the raw vector to bytes, decode with PIL, and
display inline (`display`) or as a popup (`img.show()`) according to
`inline == True`.  No `return` statement: the function returns `None`. -/
def make_geoplot (env : Env) (plot_R_code : String)
    (inline : PyVal := PyVal.bool true) : CallResult :=
  let defScript := create_plot_script plot_R_code
  match env.exec defScript with
  | some e => ([Event.rExec defScript], Except.error e)
  | Option.none =>
    match env.callPlot with
    | Except.error e =>
        ([Event.rExec defScript, Event.rCall "create_plot"], Except.error e)
    | Except.ok raw =>
      let pre := Event.rExec defScript :: Event.rCall "create_plot" ::
        create_plot_file_events env
      match env.decode raw with
      | Except.error e => (pre, Except.error e)
      | Except.ok img =>
          (pre ++ [if pyEqTrue inline then Event.displayInline img
                   else Event.popupShow img],
           Except.ok PyVal.none)

/-- `make_market_plot(r, market_id, inline=True)`: create a named
temporary file with `delete=False` (nothing ever removes it), run the
plotting script that writes the png into it, read it back with
`Image.open`, and display.  Returns `None`. -/
def make_market_plot (env : Env) (market_id : PyVal)
    (inline : PyVal := PyVal.bool true) : CallResult :=
  match env.tmpCreate with
  | Except.error e => ([], Except.error e)
  | Except.ok tmpfile_name =>
    let script := market_plot_script tmpfile_name (pyStr market_id)
    match env.exec script with
    | some e =>
        ([Event.tmpCreate tmpfile_name, Event.rExec script], Except.error e)
    | Option.none =>
      let pre := [Event.tmpCreate tmpfile_name, Event.rExec script,
        Event.tmpWrite tmpfile_name, Event.tmpRead tmpfile_name]
      match env.openFile tmpfile_name with
      | Except.error e => (pre, Except.error e)
      | Except.ok img =>
          (pre ++ [if pyEqTrue inline then Event.displayInline img
                   else Event.popupShow img],
           Except.ok PyVal.none)

/-- `make_market_deep_dive_plot(r, market_id, lookback_window,
inline=True)`: run the setup script (derive the row's treatment
locations and duration, build `power_data` with `GeoLiftPower`), then
delegate plotting to `make_geoplot(r, p)` — note the source does not
forward `inline`, so the inner call uses its default `True`. -/
def make_market_deep_dive_plot (env : Env) (market_id lookback_window : PyVal)
    (_inline : PyVal := PyVal.bool true) : CallResult :=
  let setup := deep_dive_setup_script (pyStr market_id) (pyStr lookback_window)
  match env.exec setup with
  | some e => ([Event.rExec setup], Except.error e)
  | Option.none =>
    let inner := make_geoplot env deep_dive_plot_code
    (Event.rExec setup :: inner.1, inner.2)

/-- `make_market_plot_multicell(r, market_ids, inline=True)`: bind
`test_locs` to the R list of all cells, then proceed exactly as
`make_market_plot` with the single combined `plot(Markets, ...)`
command.  Returns `None`. -/
def make_market_plot_multicell (env : Env) (market_ids : List PyVal)
    (inline : PyVal := PyVal.bool true) : CallResult :=
  let locsScript := test_locs_script market_ids
  match env.exec locsScript with
  | some e => ([Event.rExec locsScript], Except.error e)
  | Option.none =>
    match env.tmpCreate with
    | Except.error e => ([Event.rExec locsScript], Except.error e)
    | Except.ok tmpfile_name =>
      let script := multicell_plot_script tmpfile_name
      match env.exec script with
      | some e =>
          ([Event.rExec locsScript, Event.tmpCreate tmpfile_name,
            Event.rExec script], Except.error e)
      | Option.none =>
        let pre := [Event.rExec locsScript, Event.tmpCreate tmpfile_name,
          Event.rExec script, Event.tmpWrite tmpfile_name,
          Event.tmpRead tmpfile_name]
        match env.openFile tmpfile_name with
        | Except.error e => (pre, Except.error e)
        | Except.ok img =>
            (pre ++ [if pyEqTrue inline then Event.displayInline img
                     else Event.popupShow img],
             Except.ok PyVal.none)

/-- `make_market_deep_dive_plot_multicell(r, market_ids,
lookback_window, inline=True)`: bind `test_locs`, compute `Power` with
`MultiCellPower`, then create the temp file, run the single
`plot(Power, ...)` command, read the image back, and display (this
variant does test its own `inline`).  Returns `None`. -/
def make_market_deep_dive_plot_multicell (env : Env) (market_ids : List PyVal)
    (lookback_window : PyVal) (inline : PyVal := PyVal.bool true) : CallResult :=
  let locsScript := mc_test_locs_script market_ids
  match env.exec locsScript with
  | some e => ([Event.rExec locsScript], Except.error e)
  | Option.none =>
    let powerScript := mc_power_script (pyStr lookback_window)
    match env.exec powerScript with
    | some e =>
        ([Event.rExec locsScript, Event.rExec powerScript], Except.error e)
    | Option.none =>
      match env.tmpCreate with
      | Except.error e =>
          ([Event.rExec locsScript, Event.rExec powerScript], Except.error e)
      | Except.ok tmpfile_name =>
        let script := mc_deep_plot_script tmpfile_name
        match env.exec script with
        | some e =>
            ([Event.rExec locsScript, Event.rExec powerScript,
              Event.tmpCreate tmpfile_name, Event.rExec script], Except.error e)
        | Option.none =>
          let pre := [Event.rExec locsScript, Event.rExec powerScript,
            Event.tmpCreate tmpfile_name, Event.rExec script,
            Event.tmpWrite tmpfile_name, Event.tmpRead tmpfile_name]
          match env.openFile tmpfile_name with
          | Except.error e => (pre, Except.error e)
          | Except.ok img =>
              (pre ++ [if pyEqTrue inline then Event.displayInline img
                       else Event.popupShow img],
               Except.ok PyVal.none)

/-! ## Trace observations -/

/-- Is this event the inline display (`display(img)`)? -/
def isInlineDisp : Event → Bool
  | Event.displayInline _ => true
  | _ => false

/-- Is this event the popup display (`img.show()`)? -/
def isPopupDisp : Event → Bool
  | Event.popupShow _ => true
  | _ => false

/-- Is this event any display of an image? -/
def isDisplay : Event → Bool
  | Event.displayInline _ => true
  | Event.popupShow _ => true
  | _ => false

/-- Is this event an execution of a script in the R interpreter? -/
def isRExec : Event → Bool
  | Event.rExec _ => true
  | _ => false

/-- Is this event the execution of a png plot command (a script opening
a png device, i.e. starting with the common `png(filename="` header)? -/
def isPlotCmd : Event → Bool
  | Event.rExec s => mp_part1.data.isPrefixOf s.data
  | _ => false

/-- Temp-file names a trace creates, in order. -/
def createdFiles : List Event → List String
  | [] => []
  | Event.tmpCreate n :: t => n :: createdFiles t
  | _ :: t => createdFiles t

/-- Temp-file names a trace removes, in order. -/
def removedFiles : List Event → List String
  | [] => []
  | Event.tmpRemove n :: t => n :: removedFiles t
  | _ :: t => removedFiles t

/-- Temp files a call leaves on disk: created but never removed. -/
def remainingFiles (tr : List Event) : List String :=
  (createdFiles tr).filter (fun n => !(removedFiles tr).contains n)

/-- Every `tmpRead` of a file is preceded by a `tmpWrite` of it
(`ws` accumulates the files written so far). -/
def writeBeforeRead (ws : List String) : List Event → Bool
  | [] => true
  | Event.tmpWrite n :: t => writeBeforeRead (n :: ws) t
  | Event.tmpRead n :: t => ws.contains n && writeBeforeRead ws t
  | _ :: t => writeBeforeRead ws t

/-- Every `tmpWrite`/`tmpRead`/`tmpRemove` of a file is preceded by its
`tmpCreate`: the files a call touches are created freshly within it. -/
def createdFreshly (cs : List String) : List Event → Bool
  | [] => true
  | Event.tmpCreate n :: t => createdFreshly (n :: cs) t
  | Event.tmpWrite n :: t => cs.contains n && createdFreshly cs t
  | Event.tmpRead n :: t => cs.contains n && createdFreshly cs t
  | Event.tmpRemove n :: t => cs.contains n && createdFreshly cs t
  | _ :: t => createdFreshly cs t

/-! ## Substring machinery for statements about script texts -/

/-- Does `hay` contain `needle` as a contiguous sublist? -/
def hasSub (needle : List Char) : List Char → Bool
  | [] => needle.isEmpty
  | c :: rest => needle.isPrefixOf (c :: rest) || hasSub needle rest

/-- Does string `hay` contain string `needle` as a substring? -/
def strHasSub (needle hay : String) : Bool :=
  hasSub needle.data hay.data

/-! ## Concrete environments used by witnesses and counterexamples -/

/-- An R evaluation error, as `rpy2` surfaces it. -/
def errR : Err := ⟨"RRuntimeError: object not found"⟩

/-- A PIL decode failure. -/
def errDecode : Err := ⟨"UnidentifiedImageError"⟩

/-- An OS temp-file failure. -/
def errOS : Err := ⟨"OSError: no space left on device"⟩

/-- A fully successful environment: every script runs, `create_plot`
returns a png payload, PIL decodes everything, the temp file is granted. -/
def envOk : Env where
  exec := fun _ => Option.none
  callPlot := Except.ok [137, 80, 78, 71]
  decode := fun b => Except.ok ⟨b⟩
  openFile := fun _ => Except.ok ⟨[137, 80, 78, 71]⟩
  tmpCreate := Except.ok "/tmp/tmp1a2b.png"
  tmpA := "/tmp/RtmpX/fileA"
  tmpB := "/tmp/RtmpX/fileB"

/-- An environment whose R interpreter rejects every script. -/
def envExecFail : Env :=
  { envOk with exec := fun _ => some errR }

/-- An environment where `create_plot` itself raises. -/
def envCallFail : Env :=
  { envOk with callPlot := Except.error errR }

/-- An environment where PIL cannot decode the returned payload. -/
def envDecodeFail : Env :=
  { envOk with decode := fun _ => Except.error errDecode,
               openFile := fun _ => Except.error errDecode }

/-- An environment where the OS refuses the named temporary file. -/
def envTmpFail : Env :=
  { envOk with tmpCreate := Except.error errOS }

/-- A successful environment whose PIL decoder behaves like PIL on an
empty payload: decoding zero bytes fails. -/
def envPng : Env :=
  { envOk with decode := fun b =>
      if b.isEmpty then Except.error errDecode else Except.ok ⟨b⟩ }

theorem hasSub_nil (l : List Char) : hasSub [] l = true := by
  cases l with
  | nil => rfl
  | cons c rest => simp [hasSub, List.isPrefixOf]

theorem hasSub_of_append (pre post needle : List Char) :
    hasSub needle (pre ++ (needle ++ post)) = true := by
  induction pre with
  | nil =>
    cases needle with
    | nil => exact hasSub_nil post
    | cons c cs =>
      show hasSub (c :: cs) ((c :: cs) ++ post) = true
      have hp : (c :: cs).isPrefixOf ((c :: cs) ++ post) = true := by
        rw [List.isPrefixOf_iff_prefix]
        exact List.prefix_append _ _
      cases post with
      | nil => simp [hasSub, hp]
      | cons d ds => simp [hasSub, hp]
  | cons c cs ih =>
    show hasSub needle (c :: (cs ++ (needle ++ post))) = true
    cases h : needle.isPrefixOf (c :: (cs ++ (needle ++ post))) with
    | true => simp [hasSub, h]
    | false => simp [hasSub, h, ih]

/-- A string pasted between two fragments occurs verbatim in the result. -/
theorem strHasSub_of_append (pre mid post : String) :
    strHasSub mid (pre ++ mid ++ post) = true := by
  unfold strHasSub
  rw [String.append_assoc, String.data_append, String.data_append]
  exact hasSub_of_append pre.data post.data mid.data

/-- Membership in a `pyJoin`: each joined piece occurs between a prefix
and a suffix of the joined string. -/
theorem pyJoin_mem (sep x : String) :
    ∀ xs : List String, x ∈ xs →
      ∃ pre post, pyJoin sep xs = pre ++ x ++ post := by
  intro xs
  induction xs with
  | nil => intro h; cases h
  | cons y rest ih =>
    intro hmem
    cases rest with
    | nil =>
      rcases List.mem_singleton.mp hmem with rfl
      exact ⟨"", "", by simp [pyJoin]⟩
    | cons z more =>
      rcases List.mem_cons.mp hmem with rfl | hmem2
      · refine ⟨"", sep ++ pyJoin sep (z :: more), ?_⟩
        show pyJoin sep (x :: z :: more) = "" ++ x ++ (sep ++ pyJoin sep (z :: more))
        apply String.ext
        simp [pyJoin, String.data_append]
      · rcases ih hmem2 with ⟨pre, post, hpre⟩
        refine ⟨y ++ sep ++ pre, post, ?_⟩
        show pyJoin sep (y :: z :: more) = y ++ sep ++ pre ++ x ++ post
        apply String.ext
        simp [pyJoin, hpre, String.data_append]

/-- Lengths: one cell entry per market id. -/
theorem cellsFrom_length (l : List PyVal) :
    ∀ i, (cellsFrom i l).length = l.length := by
  induction l with
  | nil => intro i; rfl
  | cons n rest ih => intro i; simp [cellsFrom, ih]

/-- The k-th cell entry is built from the k-th market id. -/
theorem cellsFrom_get (l : List PyVal) :
    ∀ (i k : Nat) (h : k < l.length),
      (cellsFrom i l).get ⟨k, by rw [cellsFrom_length]; exact h⟩ =
        cell_entry (i + k) (l.get ⟨k, h⟩) := by
  induction l with
  | nil => intro i k h; cases h
  | cons n rest ih =>
    intro i k h
    cases k with
    | zero => simp [cellsFrom]
    | succ k' =>
      have h' : k' < rest.length := Nat.lt_of_succ_lt_succ h
      have hrec := ih (i + 1) k' h'
      simp only [cellsFrom, List.get_eq_getElem] at hrec ⊢
      simp only [List.getElem_cons_succ]
      rw [show i + (k' + 1) = i + 1 + k' by omega]
      exact hrec

/-- Each market id's rendering occurs verbatim in `market_locs`. -/
theorem market_locs_mentions (market_ids : List PyVal) (k : Nat)
    (h : k < market_ids.length) :
    ∃ pre post,
      market_locs market_ids = pre ++ pyStr (market_ids.get ⟨k, h⟩) ++ post := by
  have hk : k < (cellsFrom 0 market_ids).length := by
    rw [cellsFrom_length]; exact h
  have hmem : (cellsFrom 0 market_ids).get ⟨k, hk⟩ ∈ cellsFrom 0 market_ids :=
    List.get_mem _ _ hk
  rcases pyJoin_mem ", " _ (cellsFrom 0 market_ids) hmem with ⟨pre, post, hj⟩
  rw [cellsFrom_get market_ids 0 k h] at hj
  refine ⟨pre ++ ("cell_" ++ toString (0 + k + 1) ++ " = "), post, ?_⟩
  rw [market_locs, hj, cell_entry]
  apply String.ext
  simp [String.data_append]

/-- C1, counterexample.  The spec's own example scenario — the
single-group diagnostic plot for id 3 with inline display disabled —
leaves its named temporary file on disk: `make_market_plot` creates it
with `delete=False` and nothing ever removes it, so "no temporary file
created by that call remains on disk" is false. -/
theorem c1_counterexample :
    remainingFiles (make_market_plot envOk (PyVal.int 3) (PyVal.bool false)).1
        = ["/tmp/tmp1a2b.png"] ∧
    remainingFiles (make_market_plot envOk (PyVal.int 3) (PyVal.bool false)).1
        ≠ [] := by
  constructor
  · decide
  · decide

/-- C1, amended.  Temporary files are created freshly within each call
and written completely before being read back, and `make_geoplot`'s
second R temp file is removed after its contents are read; but every
successful call leaves exactly one temporary file on disk: the first R
png-device file in `make_geoplot` (and hence in
`make_market_deep_dive_plot`), and the `delete=False` named temporary
file in `make_market_plot` and the two multicell variants. -/
theorem c1_amended (env : Env) (code : String) (mid lw inline : PyVal)
    (ids : List PyVal) (raw : Bytes) (img img2 : PILImage) (t : String)
    (hAB : env.tmpA ≠ env.tmpB)
    (hx : ∀ s, env.exec s = Option.none)
    (hcall : env.callPlot = Except.ok raw)
    (hdec : env.decode raw = Except.ok img)
    (htmp : env.tmpCreate = Except.ok t)
    (hopen : env.openFile t = Except.ok img2) :
    (remainingFiles (make_geoplot env code inline).1 = [env.tmpA] ∧
      writeBeforeRead [] (make_geoplot env code inline).1 = true ∧
      createdFreshly [] (make_geoplot env code inline).1 = true) ∧
    (remainingFiles (make_market_plot env mid inline).1 = [t] ∧
      writeBeforeRead [] (make_market_plot env mid inline).1 = true ∧
      createdFreshly [] (make_market_plot env mid inline).1 = true) ∧
    (remainingFiles (make_market_deep_dive_plot env mid lw inline).1
        = [env.tmpA] ∧
      writeBeforeRead [] (make_market_deep_dive_plot env mid lw inline).1
        = true ∧
      createdFreshly [] (make_market_deep_dive_plot env mid lw inline).1
        = true) ∧
    (remainingFiles (make_market_plot_multicell env ids inline).1 = [t] ∧
      writeBeforeRead [] (make_market_plot_multicell env ids inline).1
        = true ∧
      createdFreshly [] (make_market_plot_multicell env ids inline).1
        = true) ∧
    (remainingFiles
        (make_market_deep_dive_plot_multicell env ids lw inline).1 = [t] ∧
      writeBeforeRead []
        (make_market_deep_dive_plot_multicell env ids lw inline).1 = true ∧
      createdFreshly []
        (make_market_deep_dive_plot_multicell env ids lw inline).1 = true) := by
  have hBA : (env.tmpB == env.tmpA) = false := by
    exact beq_eq_false_iff_ne.mpr (fun h => hAB h.symm)
  have hABd : decide (env.tmpA = env.tmpB) = false := decide_eq_false hAB
  cases hinl : pyEqTrue inline <;>
    refine ⟨⟨?_, ?_, ?_⟩, ⟨?_, ?_, ?_⟩, ⟨?_, ?_, ?_⟩, ⟨?_, ?_, ?_⟩,
      ⟨?_, ?_, ?_⟩⟩ <;>
    simp [make_geoplot, make_market_plot, make_market_deep_dive_plot,
      make_market_plot_multicell, make_market_deep_dive_plot_multicell,
      create_plot_file_events, hx, hcall, hdec, htmp, hopen, hinl,
      remainingFiles, createdFiles, removedFiles, writeBeforeRead,
      createdFreshly, List.filter, List.contains, hBA, hABd]

/-- Witness for `c1_amended` at the concrete successful environment. -/
theorem c1_amended_witness :
    remainingFiles
        (make_geoplot envOk "GeoPlot(GeoTestData_PreTest)" (PyVal.bool true)).1
      = ["/tmp/RtmpX/fileA"] ∧
    remainingFiles
        (make_market_plot_multicell envOk [PyVal.int 2, PyVal.int 5]
          (PyVal.bool true)).1
      = ["/tmp/tmp1a2b.png"] := by
  have h := c1_amended envOk "GeoPlot(GeoTestData_PreTest)" (PyVal.int 3)
    (PyVal.int 5) (PyVal.bool true) [PyVal.int 2, PyVal.int 5]
    [137, 80, 78, 71] ⟨[137, 80, 78, 71]⟩ ⟨[137, 80, 78, 71]⟩
    "/tmp/tmp1a2b.png" (by decide) (fun s => rfl) rfl rfl rfl rfl
  exact ⟨h.1.1, h.2.2.2.1.1⟩

/-- C2.  Evaluation at the failing input: calling
`make_market_deep_dive_plot` with `inline=False` on a fully successful
environment still takes the inline display path (once) and never the
popup path, because the source forwards `make_geoplot(r, p)` without
passing `inline`, so the inner call uses its default `True`.  This
contradicts the function's own docstring ("Set to False to output .png
files"). -/
theorem c2_deep_dive_ignores_inline :
    (make_market_deep_dive_plot envOk (PyVal.int 1) (PyVal.int 5)
        (PyVal.bool false)).1.countP isInlineDisp = 1 ∧
    (make_market_deep_dive_plot envOk (PyVal.int 1) (PyVal.int 5)
        (PyVal.bool false)).1.countP isPopupDisp = 0 ∧
    (make_market_deep_dive_plot envOk (PyVal.int 1) (PyVal.int 5)
        (PyVal.bool false)).2 = Except.ok PyVal.none := by
  refine ⟨by decide, by decide, rfl⟩

/-- C3, counterexample.  No validation precedes substitution: a
caller-supplied `market_id` whose string form carries an extra R
statement is pasted verbatim into the plotting script, yielding
injected script text (`system("evil")`) that the intended integer
parameter (3) never produces. -/
theorem c3_counterexample :
    strHasSub "system(\"evil\")"
        (market_plot_script "/tmp/tmp1a2b.png"
          (pyStr (PyVal.str
            "3, print_summary = TRUE)\n        system(\"evil\")\n        f(3")))
      = true ∧
    strHasSub "system(\"evil\")"
        (market_plot_script "/tmp/tmp1a2b.png" (pyStr (PyVal.int 3)))
      = false := by
  constructor
  · decide
  · decide

/-- Any substring decomposition of the haystack yields occurrence. -/
theorem strHasSub_of_eq (hay pre mid post : String)
    (h : hay = pre ++ mid ++ post) : strHasSub mid hay = true := by
  rw [h]; exact strHasSub_of_append pre mid post

/-- Each group id's rendering occurs verbatim in the `test_locs`
binding script of `make_market_plot_multicell`. -/
theorem locs_script_mentions (ids : List PyVal) (k : Nat)
    (h : k < ids.length) :
    ∃ pre post,
      test_locs_script ids = pre ++ pyStr (ids.get ⟨k, h⟩) ++ post := by
  rcases market_locs_mentions ids k h with ⟨pre, post, hm⟩
  refine ⟨"\n        test_locs <- list(" ++ pre, post ++ ")\n        ", ?_⟩
  apply String.ext
  simp [test_locs_script, hm, String.data_append, List.append_assoc]

/-- Each group id's rendering occurs verbatim in the `test_locs`
binding script of `make_market_deep_dive_plot_multicell`. -/
theorem mc_locs_script_mentions (ids : List PyVal) (k : Nat)
    (h : k < ids.length) :
    ∃ pre post,
      mc_test_locs_script ids = pre ++ pyStr (ids.get ⟨k, h⟩) ++ post := by
  rcases market_locs_mentions ids k h with ⟨pre, post, hm⟩
  refine ⟨"\n    test_locs <- list(" ++ pre, post ++ ")\n    ", ?_⟩
  apply String.ext
  simp [mc_test_locs_script, hm, String.data_append, List.append_assoc]

/-- C3, amended.  The script texts are fixed templates, but all three
named parameter families — identifier, lookback window, and the group
list — are substituted verbatim (`str(value)` with no validation):
every parameter value, including every group id in the `test_locs`
bindings of both multicell variants, occurs as-is in the generated
script, so only well-formed values keep the text within the intended
positions. -/
theorem c3_amended (t v m lw : String) :
    market_plot_script t v = mp_part1 ++ t ++ mp_part2 ++ v ++ mp_part3 ∧
    strHasSub v (market_plot_script t v) = true ∧
    deep_dive_setup_script m lw
      = dd_part1 ++ m ++ dd_part2 ++ lw ++ dd_part3 ∧
    strHasSub m (deep_dive_setup_script m lw) = true ∧
    strHasSub lw (deep_dive_setup_script m lw) = true ∧
    mc_power_script lw = mcp_part1 ++ lw ++ mcp_part2 ∧
    strHasSub lw (mc_power_script lw) = true ∧
    (∀ s : String, pyStr (PyVal.str s) = s) ∧
    (∀ ids : List PyVal, test_locs_script ids
        = "\n        test_locs <- list(" ++ market_locs ids
          ++ ")\n        ") ∧
    (∀ ids : List PyVal, mc_test_locs_script ids
        = "\n    test_locs <- list(" ++ market_locs ids ++ ")\n    ") ∧
    (∀ (ids : List PyVal) (k : Nat) (h : k < ids.length), ∃ pre post,
      test_locs_script ids = pre ++ pyStr (ids.get ⟨k, h⟩) ++ post) ∧
    (∀ (ids : List PyVal) (k : Nat) (h : k < ids.length), ∃ pre post,
      mc_test_locs_script ids = pre ++ pyStr (ids.get ⟨k, h⟩) ++ post) := by
  refine ⟨rfl, ?_, rfl, ?_, ?_, rfl, ?_, fun s => rfl, fun ids => rfl,
    fun ids => rfl, fun ids k h => locs_script_mentions ids k h,
    fun ids k h => mc_locs_script_mentions ids k h⟩
  · exact strHasSub_of_eq _ (mp_part1 ++ t ++ mp_part2) v mp_part3 rfl
  · apply strHasSub_of_eq _ dd_part1 m (dd_part2 ++ lw ++ dd_part3)
    apply String.ext
    simp [deep_dive_setup_script, String.data_append, List.append_assoc]
  · exact strHasSub_of_eq _ (dd_part1 ++ m ++ dd_part2) lw dd_part3 rfl
  · exact strHasSub_of_eq _ mcp_part1 lw mcp_part2 rfl

/-- Witness for `c3_amended`: the second of two concrete group ids
occurs verbatim in both `test_locs` binding scripts. -/
theorem c3_amended_witness :
    (∃ pre post, test_locs_script [PyVal.int 4, PyVal.int 9]
        = pre ++ pyStr (([PyVal.int 4, PyVal.int 9] : List PyVal).get
            ⟨1, by decide⟩) ++ post) ∧
    (∃ pre post, mc_test_locs_script [PyVal.int 4, PyVal.int 9]
        = pre ++ pyStr (([PyVal.int 4, PyVal.int 9] : List PyVal).get
            ⟨1, by decide⟩) ++ post) := by
  have h := c3_amended "/tmp/tmp1a2b.png" "3" "2" "10"
  exact ⟨h.2.2.2.2.2.2.2.2.2.2.1 [PyVal.int 4, PyVal.int 9] 1 (by decide),
    h.2.2.2.2.2.2.2.2.2.2.2 [PyVal.int 4, PyVal.int 9] 1 (by decide)⟩

/-- C4.  Failures are propagated to the caller unmodified, at every
failure site of every one of the five helpers: whichever boundary fails
first — script evaluation in the R interpreter (any of the executed
scripts), the `create_plot` call, PIL image decoding/opening, or
temp-file creation — the call raises exactly that error; the returned
trace shows every step up to the failure was attempted exactly once
(no retry) and nothing was displayed (no fallback, no partial
result). -/
theorem c4_propagation (env : Env) (code : String)
    (mid lw inline : PyVal) (ids : List PyVal) (e : Err) :
    (env.exec (create_plot_script code) = some e →
      make_geoplot env code inline =
        ([Event.rExec (create_plot_script code)], Except.error e)) ∧
    (env.exec (create_plot_script code) = Option.none →
      env.callPlot = Except.error e →
      make_geoplot env code inline =
        ([Event.rExec (create_plot_script code), Event.rCall "create_plot"],
         Except.error e)) ∧
    (∀ raw, env.exec (create_plot_script code) = Option.none →
      env.callPlot = Except.ok raw →
      env.decode raw = Except.error e →
      make_geoplot env code inline =
        (Event.rExec (create_plot_script code) :: Event.rCall "create_plot" ::
          create_plot_file_events env, Except.error e)) ∧
    (env.tmpCreate = Except.error e →
      make_market_plot env mid inline = ([], Except.error e)) ∧
    (∀ t, env.tmpCreate = Except.ok t →
      env.exec (market_plot_script t (pyStr mid)) = some e →
      make_market_plot env mid inline =
        ([Event.tmpCreate t, Event.rExec (market_plot_script t (pyStr mid))],
         Except.error e)) ∧
    (∀ t, env.tmpCreate = Except.ok t →
      env.exec (market_plot_script t (pyStr mid)) = Option.none →
      env.openFile t = Except.error e →
      make_market_plot env mid inline =
        ([Event.tmpCreate t, Event.rExec (market_plot_script t (pyStr mid)),
          Event.tmpWrite t, Event.tmpRead t], Except.error e)) ∧
    (env.exec (deep_dive_setup_script (pyStr mid) (pyStr lw)) = some e →
      make_market_deep_dive_plot env mid lw inline =
        ([Event.rExec (deep_dive_setup_script (pyStr mid) (pyStr lw))],
         Except.error e)) ∧
    (env.exec (deep_dive_setup_script (pyStr mid) (pyStr lw)) = Option.none →
      env.exec (create_plot_script deep_dive_plot_code) = some e →
      make_market_deep_dive_plot env mid lw inline =
        ([Event.rExec (deep_dive_setup_script (pyStr mid) (pyStr lw)),
          Event.rExec (create_plot_script deep_dive_plot_code)],
         Except.error e)) ∧
    (env.exec (deep_dive_setup_script (pyStr mid) (pyStr lw)) = Option.none →
      env.exec (create_plot_script deep_dive_plot_code) = Option.none →
      env.callPlot = Except.error e →
      make_market_deep_dive_plot env mid lw inline =
        ([Event.rExec (deep_dive_setup_script (pyStr mid) (pyStr lw)),
          Event.rExec (create_plot_script deep_dive_plot_code),
          Event.rCall "create_plot"], Except.error e)) ∧
    (∀ raw,
      env.exec (deep_dive_setup_script (pyStr mid) (pyStr lw)) = Option.none →
      env.exec (create_plot_script deep_dive_plot_code) = Option.none →
      env.callPlot = Except.ok raw →
      env.decode raw = Except.error e →
      make_market_deep_dive_plot env mid lw inline =
        (Event.rExec (deep_dive_setup_script (pyStr mid) (pyStr lw)) ::
          Event.rExec (create_plot_script deep_dive_plot_code) ::
          Event.rCall "create_plot" :: create_plot_file_events env,
         Except.error e)) ∧
    (env.exec (test_locs_script ids) = some e →
      make_market_plot_multicell env ids inline =
        ([Event.rExec (test_locs_script ids)], Except.error e)) ∧
    (env.exec (test_locs_script ids) = Option.none →
      env.tmpCreate = Except.error e →
      make_market_plot_multicell env ids inline =
        ([Event.rExec (test_locs_script ids)], Except.error e)) ∧
    (∀ t, env.exec (test_locs_script ids) = Option.none →
      env.tmpCreate = Except.ok t →
      env.exec (multicell_plot_script t) = some e →
      make_market_plot_multicell env ids inline =
        ([Event.rExec (test_locs_script ids), Event.tmpCreate t,
          Event.rExec (multicell_plot_script t)], Except.error e)) ∧
    (∀ t, env.exec (test_locs_script ids) = Option.none →
      env.tmpCreate = Except.ok t →
      env.exec (multicell_plot_script t) = Option.none →
      env.openFile t = Except.error e →
      make_market_plot_multicell env ids inline =
        ([Event.rExec (test_locs_script ids), Event.tmpCreate t,
          Event.rExec (multicell_plot_script t), Event.tmpWrite t,
          Event.tmpRead t], Except.error e)) ∧
    (env.exec (mc_test_locs_script ids) = some e →
      make_market_deep_dive_plot_multicell env ids lw inline =
        ([Event.rExec (mc_test_locs_script ids)], Except.error e)) ∧
    (env.exec (mc_test_locs_script ids) = Option.none →
      env.exec (mc_power_script (pyStr lw)) = some e →
      make_market_deep_dive_plot_multicell env ids lw inline =
        ([Event.rExec (mc_test_locs_script ids),
          Event.rExec (mc_power_script (pyStr lw))], Except.error e)) ∧
    (env.exec (mc_test_locs_script ids) = Option.none →
      env.exec (mc_power_script (pyStr lw)) = Option.none →
      env.tmpCreate = Except.error e →
      make_market_deep_dive_plot_multicell env ids lw inline =
        ([Event.rExec (mc_test_locs_script ids),
          Event.rExec (mc_power_script (pyStr lw))], Except.error e)) ∧
    (∀ t, env.exec (mc_test_locs_script ids) = Option.none →
      env.exec (mc_power_script (pyStr lw)) = Option.none →
      env.tmpCreate = Except.ok t →
      env.exec (mc_deep_plot_script t) = some e →
      make_market_deep_dive_plot_multicell env ids lw inline =
        ([Event.rExec (mc_test_locs_script ids),
          Event.rExec (mc_power_script (pyStr lw)), Event.tmpCreate t,
          Event.rExec (mc_deep_plot_script t)], Except.error e)) ∧
    (∀ t, env.exec (mc_test_locs_script ids) = Option.none →
      env.exec (mc_power_script (pyStr lw)) = Option.none →
      env.tmpCreate = Except.ok t →
      env.exec (mc_deep_plot_script t) = Option.none →
      env.openFile t = Except.error e →
      make_market_deep_dive_plot_multicell env ids lw inline =
        ([Event.rExec (mc_test_locs_script ids),
          Event.rExec (mc_power_script (pyStr lw)), Event.tmpCreate t,
          Event.rExec (mc_deep_plot_script t), Event.tmpWrite t,
          Event.tmpRead t], Except.error e)) := by
  refine ⟨?_, ?_, ?_, ?_, ?_, ?_, ?_, ?_, ?_, ?_, ?_, ?_, ?_, ?_, ?_, ?_,
    ?_, ?_, ?_⟩
  · intro h; simp [make_geoplot, h]
  · intro h1 h2; simp [make_geoplot, h1, h2]
  · intro raw h1 h2 h3; simp [make_geoplot, h1, h2, h3]
  · intro h; simp [make_market_plot, h]
  · intro t h1 h2; simp [make_market_plot, h1, h2]
  · intro t h1 h2 h3; simp [make_market_plot, h1, h2, h3]
  · intro h; simp [make_market_deep_dive_plot, h]
  · intro h1 h2; simp [make_market_deep_dive_plot, make_geoplot, h1, h2]
  · intro h1 h2 h3
    simp [make_market_deep_dive_plot, make_geoplot, h1, h2, h3]
  · intro raw h1 h2 h3 h4
    simp [make_market_deep_dive_plot, make_geoplot, h1, h2, h3, h4]
  · intro h; simp [make_market_plot_multicell, h]
  · intro h1 h2; simp [make_market_plot_multicell, h1, h2]
  · intro t h1 h2 h3; simp [make_market_plot_multicell, h1, h2, h3]
  · intro t h1 h2 h3 h4; simp [make_market_plot_multicell, h1, h2, h3, h4]
  · intro h; simp [make_market_deep_dive_plot_multicell, h]
  · intro h1 h2; simp [make_market_deep_dive_plot_multicell, h1, h2]
  · intro h1 h2 h3; simp [make_market_deep_dive_plot_multicell, h1, h2, h3]
  · intro t h1 h2 h3 h4
    simp [make_market_deep_dive_plot_multicell, h1, h2, h3, h4]
  · intro t h1 h2 h3 h4 h5
    simp [make_market_deep_dive_plot_multicell, h1, h2, h3, h4, h5]

/-- Witness for `c4_propagation` at concrete failing environments:
an R evaluation error, temp-file errors and decode errors — in the
single-plot helpers, in the deep-dive helper's inner capture call, and
in both multicell variants — each come back exactly as raised. -/
theorem c4_witness :
    make_geoplot envExecFail "GeoPlot(GeoTestData_PreTest)" (PyVal.bool true) =
      ([Event.rExec (create_plot_script "GeoPlot(GeoTestData_PreTest)")],
       Except.error errR) ∧
    make_market_plot envTmpFail (PyVal.int 3) (PyVal.bool true) =
      ([], Except.error errOS) ∧
    make_geoplot envDecodeFail "GeoPlot(GeoTestData_PreTest)"
        (PyVal.bool true) =
      (Event.rExec (create_plot_script "GeoPlot(GeoTestData_PreTest)") ::
        Event.rCall "create_plot" :: create_plot_file_events envDecodeFail,
       Except.error errDecode) ∧
    make_geoplot envCallFail "GeoPlot(GeoTestData_PreTest)" (PyVal.bool true) =
      ([Event.rExec (create_plot_script "GeoPlot(GeoTestData_PreTest)"),
        Event.rCall "create_plot"], Except.error errR) ∧
    make_market_deep_dive_plot envDecodeFail (PyVal.int 3) (PyVal.int 5)
        (PyVal.bool true) =
      (Event.rExec (deep_dive_setup_script (pyStr (PyVal.int 3))
          (pyStr (PyVal.int 5))) ::
        Event.rExec (create_plot_script deep_dive_plot_code) ::
        Event.rCall "create_plot" :: create_plot_file_events envDecodeFail,
       Except.error errDecode) ∧
    make_market_plot_multicell envDecodeFail [PyVal.int 2] (PyVal.bool true) =
      ([Event.rExec (test_locs_script [PyVal.int 2]),
        Event.tmpCreate "/tmp/tmp1a2b.png",
        Event.rExec (multicell_plot_script "/tmp/tmp1a2b.png"),
        Event.tmpWrite "/tmp/tmp1a2b.png", Event.tmpRead "/tmp/tmp1a2b.png"],
       Except.error errDecode) ∧
    make_market_deep_dive_plot_multicell envTmpFail [PyVal.int 2]
        (PyVal.int 5) (PyVal.bool true) =
      ([Event.rExec (mc_test_locs_script [PyVal.int 2]),
        Event.rExec (mc_power_script (pyStr (PyVal.int 5)))],
       Except.error errOS) := by
  have hEF := c4_propagation envExecFail "GeoPlot(GeoTestData_PreTest)"
    (PyVal.int 3) (PyVal.int 5) (PyVal.bool true) [PyVal.int 2] errR
  have hTF := c4_propagation envTmpFail "GeoPlot(GeoTestData_PreTest)"
    (PyVal.int 3) (PyVal.int 5) (PyVal.bool true) [PyVal.int 2] errOS
  have hDF := c4_propagation envDecodeFail "GeoPlot(GeoTestData_PreTest)"
    (PyVal.int 3) (PyVal.int 5) (PyVal.bool true) [PyVal.int 2] errDecode
  have hCF := c4_propagation envCallFail "GeoPlot(GeoTestData_PreTest)"
    (PyVal.int 3) (PyVal.int 5) (PyVal.bool true) [PyVal.int 2] errR
  refine ⟨hEF.1 rfl, hTF.2.2.2.1 rfl,
    hDF.2.2.1 [137, 80, 78, 71] rfl rfl rfl, hCF.2.1 rfl rfl, ?_, ?_, ?_⟩
  · exact hDF.2.2.2.2.2.2.2.2.2.1 [137, 80, 78, 71] rfl rfl rfl rfl
  · exact hDF.2.2.2.2.2.2.2.2.2.2.2.2.2.1 "/tmp/tmp1a2b.png" rfl rfl rfl rfl
  · exact hTF.2.2.2.2.2.2.2.2.2.2.2.2.2.2.2.2.1 rfl rfl rfl

/-- C5.  When the interpreter rejects the script referencing a
market/group identifier absent from the backing dataset (per the spec,
a missing object/row is a script-evaluation error in R), the
single-group and deep-dive helpers surface exactly that error and
display nothing — no silent empty or placeholder image. -/
theorem c5_missing_id_error (env : Env) (mid lw inline : PyVal)
    (e e2 : Err) (t : String)
    (htmp : env.tmpCreate = Except.ok t)
    (hexec : env.exec (market_plot_script t (pyStr mid)) = some e)
    (hdd : env.exec (deep_dive_setup_script (pyStr mid) (pyStr lw)) = some e2) :
    ((make_market_plot env mid inline).2 = Except.error e ∧
      (make_market_plot env mid inline).1.countP isDisplay = 0) ∧
    ((make_market_deep_dive_plot env mid lw inline).2 = Except.error e2 ∧
      (make_market_deep_dive_plot env mid lw inline).1.countP isDisplay
        = 0) := by
  refine ⟨⟨?_, ?_⟩, ⟨?_, ?_⟩⟩ <;>
    simp [make_market_plot, make_market_deep_dive_plot, htmp, hexec, hdd,
      List.countP_cons, isDisplay]

/-- Witness for `c5_missing_id_error`: the environment whose R
interpreter reports an error for every script (as it would for a
missing id) yields that error and an empty display count. -/
theorem c5_witness :
    ((make_market_plot envExecFail (PyVal.int 999) (PyVal.bool true)).2
        = Except.error errR ∧
      (make_market_plot envExecFail (PyVal.int 999)
          (PyVal.bool true)).1.countP isDisplay = 0) ∧
    ((make_market_deep_dive_plot envExecFail (PyVal.int 999) (PyVal.int 5)
          (PyVal.bool true)).2 = Except.error errR ∧
      (make_market_deep_dive_plot envExecFail (PyVal.int 999) (PyVal.int 5)
          (PyVal.bool true)).1.countP isDisplay = 0) :=
  c5_missing_id_error envExecFail (PyVal.int 999) (PyVal.int 5)
    (PyVal.bool true) errR errR "/tmp/tmp1a2b.png" rfl rfl rfl

/-- The fixed png header heads any script assembled from it. -/
theorem png_prefix (t tail : String) :
    mp_part1.data <+: (mp_part1 ++ t ++ tail).data := by
  rw [String.data_append, String.data_append, List.append_assoc]
  exact List.prefix_append _ _

/-- If the fixed png header is no prefix of a script's head fragment
(at least as long as the header), it is no prefix of the whole script. -/
theorem not_prefix_of_head (s head rest : String)
    (hs : s.data = head.data ++ rest.data)
    (hlen : mp_part1.data.length ≤ head.data.length)
    (hnp : mp_part1.data.isPrefixOf head.data = false) :
    ¬ mp_part1.data <+: s.data := by
  rw [hs]
  intro h1
  have h2 : head.data <+: head.data ++ rest.data :=
    List.prefix_append head.data rest.data
  have h3 : mp_part1.data <+: head.data :=
    List.prefix_of_prefix_length_le h1 h2 hlen
  rw [(List.isPrefixOf_iff_prefix).mpr h3] at hnp
  cases hnp

set_option maxRecDepth 8000 in
/-- C6.  For a non-empty list of N group identifiers, each multicell
variant binds `test_locs` to the single R list containing one cell per
identifier (all N rendered verbatim into that one list), then executes
exactly one png plot command and displays exactly one image — never N
plot commands or N images. -/
theorem c6_multicell_one_combined_plot (env : Env) (ids : List PyVal)
    (lw inline : PyVal) (t : String) (img : PILImage)
    (hne : ids ≠ [])
    (hx : ∀ s, env.exec s = Option.none)
    (htmp : env.tmpCreate = Except.ok t)
    (hopen : env.openFile t = Except.ok img) :
    (make_market_plot_multicell env ids inline).1 =
      [Event.rExec (test_locs_script ids), Event.tmpCreate t,
       Event.rExec (multicell_plot_script t), Event.tmpWrite t,
       Event.tmpRead t,
       if pyEqTrue inline then Event.displayInline img
       else Event.popupShow img] ∧
    (make_market_plot_multicell env ids inline).1.countP isPlotCmd = 1 ∧
    (make_market_plot_multicell env ids inline).1.countP isDisplay = 1 ∧
    (make_market_deep_dive_plot_multicell env ids lw inline).1 =
      [Event.rExec (mc_test_locs_script ids),
       Event.rExec (mc_power_script (pyStr lw)), Event.tmpCreate t,
       Event.rExec (mc_deep_plot_script t), Event.tmpWrite t,
       Event.tmpRead t,
       if pyEqTrue inline then Event.displayInline img
       else Event.popupShow img] ∧
    (make_market_deep_dive_plot_multicell env ids lw inline).1.countP
        isPlotCmd = 1 ∧
    (make_market_deep_dive_plot_multicell env ids lw inline).1.countP
        isDisplay = 1 ∧
    (cellsFrom 0 ids).length = ids.length ∧
    (∀ (k : Nat) (h : k < ids.length), ∃ pre post,
      market_locs ids = pre ++ pyStr (ids.get ⟨k, h⟩) ++ post) := by
  have hlocs : ¬ mp_part1.data <+: (test_locs_script ids).data := by
    apply not_prefix_of_head _ "\n        test_locs <- list("
      (market_locs ids ++ ")\n        ")
    · simp [test_locs_script, String.data_append, List.append_assoc]
    · decide
    · decide
  have hmcl : ¬ mp_part1.data <+: (mc_test_locs_script ids).data := by
    apply not_prefix_of_head _ "\n    test_locs <- list("
      (market_locs ids ++ ")\n    ")
    · simp [mc_test_locs_script, String.data_append, List.append_assoc]
    · decide
    · decide
  have hpw : ¬ mp_part1.data <+: (mc_power_script (pyStr lw)).data := by
    apply not_prefix_of_head _ mcp_part1 (pyStr lw ++ mcp_part2)
    · simp [mc_power_script, String.data_append, List.append_assoc]
    · decide
    · decide
  have hplot : mp_part1.data <+: (multicell_plot_script t).data :=
    png_prefix t mc_part2
  have hdplot : mp_part1.data <+: (mc_deep_plot_script t).data :=
    png_prefix t mcd_part2
  cases hinl : pyEqTrue inline <;>
    refine ⟨?_, ?_, ?_, ?_, ?_, ?_, cellsFrom_length ids 0,
      fun k h => market_locs_mentions ids k h⟩ <;>
    simp [make_market_plot_multicell, make_market_deep_dive_plot_multicell,
      hx, htmp, hopen, hinl, List.countP_cons, hlocs, hmcl, hpw, hplot,
      hdplot, isPlotCmd, isDisplay]

/-- Witness for `c6_multicell_one_combined_plot` on two concrete ids in
the successful environment: one plot command, one displayed image, and
both ids rendered into the single `test_locs` binding. -/
theorem c6_witness :
    (make_market_plot_multicell envOk [PyVal.int 2, PyVal.int 7]
        (PyVal.bool true)).1.countP isPlotCmd = 1 ∧
    (make_market_plot_multicell envOk [PyVal.int 2, PyVal.int 7]
        (PyVal.bool true)).1.countP isDisplay = 1 ∧
    (∃ pre post, market_locs [PyVal.int 2, PyVal.int 7]
        = pre ++ pyStr (PyVal.int 7) ++ post) := by
  have h := c6_multicell_one_combined_plot envOk [PyVal.int 2, PyVal.int 7]
    (PyVal.int 5) (PyVal.bool true) "/tmp/tmp1a2b.png" ⟨[137, 80, 78, 71]⟩
    (by decide) (fun s => rfl) rfl rfl
  exact ⟨h.2.1, h.2.2.1, h.2.2.2.2.2.2.2 1 (by decide)⟩

set_option maxRecDepth 8000 in
/-- C7.  The deep-dive helper first executes the setup script — which
derives the treatment locations and duration from the
`MarketSelections$BestMarkets` row matching the identifier, assigns the
caller's lookback window, and builds the `GeoLiftPower` simulation from
those derived details — and only then executes the `create_plot` script
that plots `power_data`. -/
theorem c7_deep_dive_structure (env : Env) (mid lw inline : PyVal)
    (raw : Bytes) (img : PILImage)
    (hx : ∀ s, env.exec s = Option.none)
    (hcall : env.callPlot = Except.ok raw)
    (hdec : env.decode raw = Except.ok img) :
    make_market_deep_dive_plot env mid lw inline =
      (Event.rExec (deep_dive_setup_script (pyStr mid) (pyStr lw)) ::
        Event.rExec (create_plot_script deep_dive_plot_code) ::
        Event.rCall "create_plot" :: create_plot_file_events env ++
        [Event.displayInline img], Except.ok PyVal.none) ∧
    deep_dive_setup_script (pyStr mid) (pyStr lw)
      = dd_part1 ++ pyStr mid ++ dd_part2 ++ pyStr lw ++ dd_part3 ∧
    strHasSub "MarketSelections$BestMarkets %>% dplyr::filter(ID == market_id)"
      dd_part2 = true ∧
    strHasSub "treatment_locations <- stringr::str_split(market_row$location"
      dd_part2 = true ∧
    strHasSub "treatment_duration <- market_row$duration" dd_part2 = true ∧
    strHasSub "power_data <- GeoLiftPower(" dd_part3 = true ∧
    strHasSub "lookback_window = lookback_window" dd_part3 = true ∧
    strHasSub "treatment_periods = treatment_duration" dd_part3 = true ∧
    strHasSub "plot(power_data" deep_dive_plot_code = true := by
  refine ⟨?_, rfl, by decide, by decide, by decide, by decide, by decide,
    by decide, by decide⟩
  simp [make_market_deep_dive_plot, make_geoplot, hx, hcall, hdec, pyEqTrue]

/-- Witness for `c7_deep_dive_structure` at the successful environment. -/
theorem c7_witness :
    make_market_deep_dive_plot envOk (PyVal.int 2) (PyVal.int 10)
        (PyVal.bool true) =
      (Event.rExec
          (deep_dive_setup_script (pyStr (PyVal.int 2)) (pyStr (PyVal.int 10))) ::
        Event.rExec (create_plot_script deep_dive_plot_code) ::
        Event.rCall "create_plot" :: create_plot_file_events envOk ++
        [Event.displayInline ⟨[137, 80, 78, 71]⟩], Except.ok PyVal.none) :=
  (c7_deep_dive_structure envOk (PyVal.int 2) (PyVal.int 10)
    (PyVal.bool true) [137, 80, 78, 71] ⟨[137, 80, 78, 71]⟩
    (fun s => rfl) rfl rfl).1

/-- C8.  When the script fragment is valid (the `create_plot`
definition compiles and its call yields a payload PIL can decode), the
capture helper succeeds: the payload is non-empty (PIL cannot decode an
empty payload), exactly one image — the decoded one — is displayed, and
any invocation against an environment whose boundary outcomes agree
behaves identically (determinism modulo the external rendering). -/
theorem c8_capture (env env2 : Env) (code : String) (inline : PyVal)
    (raw : Bytes) (img : PILImage)
    (hx : env.exec (create_plot_script code) = Option.none)
    (hcall : env.callPlot = Except.ok raw)
    (hdec : env.decode raw = Except.ok img)
    (hpil : ∀ i, ¬ env.decode [] = Except.ok i)
    (hx2 : env2.exec (create_plot_script code) = env.exec (create_plot_script code))
    (hcall2 : env2.callPlot = env.callPlot)
    (hdec2 : ∀ b, env2.decode b = env.decode b)
    (hA : env2.tmpA = env.tmpA) (hB : env2.tmpB = env.tmpB) :
    make_geoplot env code inline =
      (Event.rExec (create_plot_script code) :: Event.rCall "create_plot" ::
        create_plot_file_events env ++
        [if pyEqTrue inline then Event.displayInline img
         else Event.popupShow img], Except.ok PyVal.none) ∧
    raw ≠ [] ∧
    (make_geoplot env code inline).1.countP isDisplay = 1 ∧
    make_geoplot env2 code inline = make_geoplot env code inline := by
  refine ⟨?_, ?_, ?_, ?_⟩
  · cases hinl : pyEqTrue inline <;> simp [make_geoplot, hx, hcall, hdec, hinl]
  · intro hraw
    exact hpil img (hraw ▸ hdec)
  · cases hinl : pyEqTrue inline <;>
      simp [make_geoplot, hx, hcall, hdec, hinl, List.countP_cons, isDisplay,
        create_plot_file_events]
  · simp [make_geoplot, hx, hcall, hdec, hx2, hcall2, hdec2, hA, hB,
      create_plot_file_events]

/-- Witness for `c8_capture`: the environment whose decoder, like PIL,
rejects empty payloads, applied twice to the same call. -/
theorem c8_witness :
    make_geoplot envPng "GeoPlot(GeoTestData_PreTest)" (PyVal.bool true) =
      (Event.rExec (create_plot_script "GeoPlot(GeoTestData_PreTest)") ::
        Event.rCall "create_plot" :: create_plot_file_events envPng ++
        [if pyEqTrue (PyVal.bool true)
         then Event.displayInline ⟨[137, 80, 78, 71]⟩
         else Event.popupShow ⟨[137, 80, 78, 71]⟩], Except.ok PyVal.none) ∧
    ([137, 80, 78, 71] : Bytes) ≠ [] := by
  have h := c8_capture envPng envPng "GeoPlot(GeoTestData_PreTest)"
    (PyVal.bool true) [137, 80, 78, 71] ⟨[137, 80, 78, 71]⟩
    rfl rfl rfl (by intro i hi; simp [envPng] at hi)
    rfl rfl (fun b => rfl) rfl rfl
  exact ⟨h.1, h.2.1⟩

/-- C9.  None of the five helpers has a `return` statement: whatever
the environment does, each call either raises the propagated exception
or returns Python `None` — the display is the only output. -/
theorem c9_returns_none (env : Env) (code : String) (mid lw inline : PyVal)
    (ids : List PyVal) :
    ((make_geoplot env code inline).2 = Except.ok PyVal.none ∨
      ∃ e, (make_geoplot env code inline).2 = Except.error e) ∧
    ((make_market_plot env mid inline).2 = Except.ok PyVal.none ∨
      ∃ e, (make_market_plot env mid inline).2 = Except.error e) ∧
    ((make_market_deep_dive_plot env mid lw inline).2 = Except.ok PyVal.none ∨
      ∃ e, (make_market_deep_dive_plot env mid lw inline).2
        = Except.error e) ∧
    ((make_market_plot_multicell env ids inline).2 = Except.ok PyVal.none ∨
      ∃ e, (make_market_plot_multicell env ids inline).2 = Except.error e) ∧
    ((make_market_deep_dive_plot_multicell env ids lw inline).2
        = Except.ok PyVal.none ∨
      ∃ e, (make_market_deep_dive_plot_multicell env ids lw inline).2
        = Except.error e) := by
  have hgeo : ∀ (c : String) (inl : PyVal),
      (make_geoplot env c inl).2 = Except.ok PyVal.none ∨
      ∃ e, (make_geoplot env c inl).2 = Except.error e := by
    intro c inl
    cases h1 : env.exec (create_plot_script c) with
    | some e => exact Or.inr ⟨e, by simp [make_geoplot, h1]⟩
    | none =>
      cases h2 : env.callPlot with
      | error e => exact Or.inr ⟨e, by simp [make_geoplot, h1, h2]⟩
      | ok raw =>
        cases h3 : env.decode raw with
        | error e => exact Or.inr ⟨e, by simp [make_geoplot, h1, h2, h3]⟩
        | ok img => exact Or.inl (by simp [make_geoplot, h1, h2, h3])
  refine ⟨hgeo code inline, ?_, ?_, ?_, ?_⟩
  · cases h0 : env.tmpCreate with
    | error e => exact Or.inr ⟨e, by simp [make_market_plot, h0]⟩
    | ok t =>
      cases h1 : env.exec (market_plot_script t (pyStr mid)) with
      | some e => exact Or.inr ⟨e, by simp [make_market_plot, h0, h1]⟩
      | none =>
        cases h2 : env.openFile t with
        | error e => exact Or.inr ⟨e, by simp [make_market_plot, h0, h1, h2]⟩
        | ok img => exact Or.inl (by simp [make_market_plot, h0, h1, h2])
  · cases h1 : env.exec (deep_dive_setup_script (pyStr mid) (pyStr lw)) with
    | some e => exact Or.inr ⟨e, by simp [make_market_deep_dive_plot, h1]⟩
    | none =>
      have h2 : (make_market_deep_dive_plot env mid lw inline).2
          = (make_geoplot env deep_dive_plot_code).2 := by
        simp [make_market_deep_dive_plot, h1]
      rw [h2]
      exact hgeo deep_dive_plot_code (PyVal.bool true)
  · cases h0 : env.exec (test_locs_script ids) with
    | some e => exact Or.inr ⟨e, by simp [make_market_plot_multicell, h0]⟩
    | none =>
      cases h1 : env.tmpCreate with
      | error e => exact Or.inr ⟨e, by simp [make_market_plot_multicell, h0, h1]⟩
      | ok t =>
        cases h2 : env.exec (multicell_plot_script t) with
        | some e =>
          exact Or.inr ⟨e, by simp [make_market_plot_multicell, h0, h1, h2]⟩
        | none =>
          cases h3 : env.openFile t with
          | error e =>
            exact Or.inr ⟨e, by simp [make_market_plot_multicell, h0, h1, h2, h3]⟩
          | ok img =>
            exact Or.inl (by simp [make_market_plot_multicell, h0, h1, h2, h3])
  · cases h0 : env.exec (mc_test_locs_script ids) with
    | some e =>
      exact Or.inr ⟨e, by simp [make_market_deep_dive_plot_multicell, h0]⟩
    | none =>
      cases hp : env.exec (mc_power_script (pyStr lw)) with
      | some e =>
        exact Or.inr ⟨e, by simp [make_market_deep_dive_plot_multicell, h0, hp]⟩
      | none =>
        cases h1 : env.tmpCreate with
        | error e =>
          exact Or.inr
            ⟨e, by simp [make_market_deep_dive_plot_multicell, h0, hp, h1]⟩
        | ok t =>
          cases h2 : env.exec (mc_deep_plot_script t) with
          | some e =>
            exact Or.inr
              ⟨e, by simp [make_market_deep_dive_plot_multicell, h0, hp, h1, h2]⟩
          | none =>
            cases h3 : env.openFile t with
            | error e =>
              exact Or.inr ⟨e, by
                simp [make_market_deep_dive_plot_multicell, h0, hp, h1, h2, h3]⟩
            | ok img =>
              exact Or.inl (by
                simp [make_market_deep_dive_plot_multicell, h0, hp, h1, h2, h3])

/-- C10, counterexample.  A truthy non-boolean `inline` value (a
non-empty string) must take the popup path according to the claim; in
`make_market_deep_dive_plot` it still takes the inline path, because
that function never tests its `inline` argument — the inner
`make_geoplot` call runs with its own default `True`. -/
theorem c10_counterexample :
    pyEqTrue (PyVal.str "definitely") = false ∧
    (make_market_deep_dive_plot envOk (PyVal.int 1) (PyVal.int 5)
        (PyVal.str "definitely")).1.countP isInlineDisp = 1 ∧
    (make_market_deep_dive_plot envOk (PyVal.int 1) (PyVal.int 5)
        (PyVal.str "definitely")).1.countP isPopupDisp = 0 := by
  refine ⟨rfl, by decide, by decide⟩

/-- C10, amended.  In four of the five helpers the display dispatch is
`if inline == True:` — the inline path is taken exactly when the value
equals Python's `True` (which includes the integer 1), and every other
value, including truthy non-booleans such as non-empty strings, takes
the popup path.  `make_market_deep_dive_plot` is the exception: it
ignores its `inline` argument and always displays inline through its
internal `make_geoplot` call. -/
theorem c10_amended (env : Env) (code : String) (mid lw v : PyVal)
    (ids : List PyVal) (raw : Bytes) (img img2 : PILImage) (t : String)
    (hx : ∀ s, env.exec s = Option.none)
    (hcall : env.callPlot = Except.ok raw)
    (hdec : env.decode raw = Except.ok img)
    (htmp : env.tmpCreate = Except.ok t)
    (hopen : env.openFile t = Except.ok img2) :
    (make_geoplot env code v).1.countP isInlineDisp
        = (if pyEqTrue v then 1 else 0) ∧
    (make_geoplot env code v).1.countP isPopupDisp
        = (if pyEqTrue v then 0 else 1) ∧
    (make_market_plot env mid v).1.countP isInlineDisp
        = (if pyEqTrue v then 1 else 0) ∧
    (make_market_plot env mid v).1.countP isPopupDisp
        = (if pyEqTrue v then 0 else 1) ∧
    (make_market_plot_multicell env ids v).1.countP isInlineDisp
        = (if pyEqTrue v then 1 else 0) ∧
    (make_market_plot_multicell env ids v).1.countP isPopupDisp
        = (if pyEqTrue v then 0 else 1) ∧
    (make_market_deep_dive_plot_multicell env ids lw v).1.countP isInlineDisp
        = (if pyEqTrue v then 1 else 0) ∧
    (make_market_deep_dive_plot_multicell env ids lw v).1.countP isPopupDisp
        = (if pyEqTrue v then 0 else 1) ∧
    (make_market_deep_dive_plot env mid lw v).1.countP isInlineDisp = 1 ∧
    (make_market_deep_dive_plot env mid lw v).1.countP isPopupDisp = 0 ∧
    pyEqTrue (PyVal.bool true) = true ∧
    pyEqTrue (PyVal.int 1) = true ∧
    (∀ s : String, pyEqTrue (PyVal.str s) = false) ∧
    (∀ n : Int, n ≠ 1 → pyEqTrue (PyVal.int n) = false) := by
  have hT : pyEqTrue (PyVal.bool true) = true := rfl
  cases hv : pyEqTrue v <;>
    refine ⟨?_, ?_, ?_, ?_, ?_, ?_, ?_, ?_, ?_, ?_, rfl, by decide,
      fun s => rfl, fun n hn => by simp [pyEqTrue, hn]⟩ <;>
    simp [make_geoplot, make_market_plot, make_market_plot_multicell,
      make_market_deep_dive_plot_multicell, make_market_deep_dive_plot,
      create_plot_file_events, hx, hcall, hdec, htmp, hopen, hv, hT,
      List.countP_cons, isInlineDisp, isPopupDisp]

/-- Witness for `c10_amended`: with `inline` the integer 1 the single
plot helper displays inline; with a non-empty string it pops up. -/
theorem c10_witness :
    (make_market_plot envOk (PyVal.int 3) (PyVal.int 1)).1.countP
        isInlineDisp = 1 ∧
    (make_market_plot envOk (PyVal.int 3)
        (PyVal.str "yes")).1.countP isPopupDisp = 1 := by
  have h1 := c10_amended envOk "GeoPlot(d)" (PyVal.int 3) (PyVal.int 5)
    (PyVal.int 1) [] [137, 80, 78, 71] ⟨[137, 80, 78, 71]⟩
    ⟨[137, 80, 78, 71]⟩ "/tmp/tmp1a2b.png" (fun s => rfl) rfl rfl rfl rfl
  have h2 := c10_amended envOk "GeoPlot(d)" (PyVal.int 3) (PyVal.int 5)
    (PyVal.str "yes") [] [137, 80, 78, 71] ⟨[137, 80, 78, 71]⟩
    ⟨[137, 80, 78, 71]⟩ "/tmp/tmp1a2b.png" (fun s => rfl) rfl rfl rfl rfl
  constructor
  · have := h1.2.2.1
    simpa [pyEqTrue] using this
  · have := h2.2.2.2.1
    simpa [pyEqTrue] using this
